import Mathlib

/-!
Verification of the native-frames measurement reconciliation engine
(`src/js/tracing/nativeframes.ts` of sentry-react-native).

The TypeScript class `NativeFramesInstrumentation` is shallowly embedded:
its three pieces of mutable state (the per-trace finish-record map, the
per-trace waiter map, and the single orphan span-finish slot) become an
explicit `InstrumentationState`; each method becomes a pure function from
state (and the values the method reads from its environment: the current
time, the result of a native fetch) to state and results.  JavaScript
numbers are modelled as rationals, JS `Map`s as functions from keys to
`Option` values, and asynchronous suspension points as explicit
continuation data (`GetFramesResult.suspended`, `ProcessResult.awaiting`)
resolved by separate step functions (`fetchFramesForTransaction`,
`waiterTimeout`).
-/

namespace NativeFrames

/-- Frame counters returned by the native layer (`NativeFramesResponse`). -/
structure NativeFramesResponse where
  totalFrames : ℚ
  slowFrames : ℚ
  frozenFrames : ℚ
deriving DecidableEq

/-- A measurement value wrapper, mirroring the `{ value: number }` shape. -/
structure MeasurementValue where
  value : ℚ
deriving DecidableEq

/-- The `FramesMeasurements` record with its three fixed keys. -/
structure FramesMeasurements where
  frames_total : MeasurementValue
  frames_slow : MeasurementValue
  frames_frozen : MeasurementValue
deriving DecidableEq

/-- An entry of `_finishFrames`: `{ timestamp, nativeFrames }` where
`nativeFrames` may be `null`. -/
structure FinishRecord where
  timestamp : ℚ
  nativeFrames : Option NativeFramesResponse
deriving DecidableEq

/-- The `_lastSpanFinishFrames` slot: `{ timestamp, nativeFrames }` with a
non-null snapshot (it is only written on a successful fetch). -/
structure SpanFinishRecord where
  timestamp : ℚ
  nativeFrames : NativeFramesResponse
deriving DecidableEq

/-- The data captured by a `_framesListeners` closure (lines 101-108 of the
source): the `finalEndTimestamp` and `startFrames` arguments of the pending
`_getFramesMeasurements` call that registered it. -/
structure FramesListener where
  finalEndTimestamp : ℚ
  startFrames : NativeFramesResponse
deriving DecidableEq

/-- `MARGIN_OF_ERROR_SECONDS = 0.05` (line 11). -/
def MARGIN_OF_ERROR_SECONDS : ℚ := 5 / 100

/-- A string-keyed map, modelling a JS `Map<string, α>`: by construction it
holds at most one value per key. -/
def SMap (α : Type) : Type := String → Option α

/-- The empty map. -/
def SMap.empty {α : Type} : SMap α := fun _ => none

/-- `m.set k v`, as JS `Map.prototype.set`. -/
def SMap.set {α : Type} (m : SMap α) (k : String) (v : α) : SMap α :=
  fun k2 => if k2 = k then some v else m k2

/-- `m.del k`, as JS `Map.prototype.delete`. -/
def SMap.del {α : Type} (m : SMap α) (k : String) : SMap α :=
  fun k2 => if k2 = k then none else m k2

/-- The mutable state of a `NativeFramesInstrumentation` instance
(lines 17-25). -/
structure InstrumentationState where
  finishFrames : SMap FinishRecord
  framesListeners : SMap FramesListener
  lastSpanFinishFrames : Option SpanFinishRecord

/-- The state with both maps empty and the orphan slot unset, as after the
constructor runs. -/
def initialState : InstrumentationState :=
  { finishFrames := SMap.empty
    framesListeners := SMap.empty
    lastSpanFinishFrames := none }

/-- JS truthiness of an optional number: `undefined` and `0` are falsy. -/
def jsTruthyNum (x : Option ℚ) : Bool :=
  match x with
  | some q => decide (q ≠ 0)
  | none => false

/-- JS truthiness of an optional string: `undefined` and `""` are falsy. -/
def jsTruthyStr (s : Option String) : Bool :=
  match s with
  | some str => decide (str ≠ "")
  | none => false

/-- `_onSpanFinish(_, endTimestamp)` (lines 67-80): if the span finished
without a (truthy) explicit end timestamp, the current time `now` is
captured and a native fetch started; when the fetch resolves non-null the
orphan slot `_lastSpanFinishFrames` is overwritten.  `fetched` is the value
the fetch resolved with (`none` on failure). -/
def onSpanFinish (st : InstrumentationState) (endTimestamp : Option ℚ)
    (now : ℚ) (fetched : Option NativeFramesResponse) : InstrumentationState :=
  if jsTruthyNum endTimestamp then st
  else
    match fetched with
    | some nativeFrames =>
        { st with lastSpanFinishFrames := some ⟨now, nativeFrames⟩ }
    | none => st

/-- The three frame-count deltas (lines 142-152): finish minus start,
wrapped as `{ value }`, with no clamping. -/
def computeMeasurements (finalFinishFrames startFrames : NativeFramesResponse) :
    FramesMeasurements :=
  { frames_total := ⟨finalFinishFrames.totalFrames - startFrames.totalFrames⟩
    frames_frozen := ⟨finalFinishFrames.frozenFrames - startFrames.frozenFrames⟩
    frames_slow := ⟨finalFinishFrames.slowFrames - startFrames.slowFrames⟩ }

/-- The `else if` branch of `_prepareMeasurements` (lines 130-137): the
orphan span-finish snapshot, if present and within the margin of error of
`finalEndTimestamp`. -/
def lastSpanFallback (st : InstrumentationState) (finalEndTimestamp : ℚ) :
    Option NativeFramesResponse :=
  match st.lastSpanFinishFrames with
  | some l =>
      if |l.timestamp - finalEndTimestamp| < MARGIN_OF_ERROR_SECONDS then
        some l.nativeFrames
      else none
  | none => none

/-- `_prepareMeasurements(traceId, finalEndTimestamp, startFrames)`
(lines 115-155): pick the per-trace finish record if it exists, carries a
non-null snapshot and its timestamp is strictly within
`MARGIN_OF_ERROR_SECONDS` of `finalEndTimestamp`; otherwise fall back to
the orphan span-finish snapshot under the same margin test; otherwise
return `null`.  On a pick, return the three deltas. -/
def prepareMeasurements (st : InstrumentationState) (traceId : String)
    (finalEndTimestamp : ℚ) (startFrames : NativeFramesResponse) :
    Option FramesMeasurements :=
  let finalFinishFrames : Option NativeFramesResponse :=
    match st.finishFrames traceId with
    | some finish =>
        match finish.nativeFrames with
        | some nf =>
            if |finish.timestamp - finalEndTimestamp| < MARGIN_OF_ERROR_SECONDS
            then some nf
            else lastSpanFallback st finalEndTimestamp
        | none => lastSpanFallback st finalEndTimestamp
    | none => lastSpanFallback st finalEndTimestamp
  match finalFinishFrames with
  | some nf => some (computeMeasurements nf startFrames)
  | none => none

/-- Outcome of `_getFramesMeasurements`: either the measurements are
computed immediately (a finish record for the trace already exists), or the
call suspends, having registered a one-shot waiter in the returned state. -/
inductive GetFramesResult where
  | immediate (measurements : Option FramesMeasurements)
  | suspended (st : InstrumentationState)

/-- `_getFramesMeasurements(traceId, finalEndTimestamp, startFrames)`
(lines 85-110): compute immediately when `_finishFrames` has `traceId`;
otherwise register a listener for `traceId` and suspend. -/
def getFramesMeasurements (st : InstrumentationState) (traceId : String)
    (finalEndTimestamp : ℚ) (startFrames : NativeFramesResponse) :
    GetFramesResult :=
  if (st.finishFrames traceId).isSome then
    .immediate (prepareMeasurements st traceId finalEndTimestamp startFrames)
  else
    .suspended
      { st with
        framesListeners :=
          st.framesListeners.set traceId ⟨finalEndTimestamp, startFrames⟩ }

/-- The 2000 ms timeout of a suspended `_getFramesMeasurements` firing
(lines 95-99): the waiter is deleted and the call resolves `null`. -/
def waiterTimeout (st : InstrumentationState) (traceId : String) :
    InstrumentationState × Option FramesMeasurements :=
  ({ st with framesListeners := st.framesListeners.del traceId }, none)

/-- `_fetchFramesForTransaction(transaction)` (lines 160-182), parameterised
by what the method reads from its environment: the transaction's trace id
and `__startFrames` data, the current time `now`, and the value `fetched`
that `NATIVE.fetchNativeFrames()` would resolve with.  When `startFrames`
is absent no fetch is performed and a null snapshot is recorded.  The
finish record is stored, then the registered listener (if any) is invoked —
it resolves `_prepareMeasurements` over the updated state and removes
itself.  The second component is the value delivered to that listener
(`none` when no listener was registered). -/
def fetchFramesForTransaction (st : InstrumentationState) (traceId : String)
    (startFrames : Option NativeFramesResponse) (now : ℚ)
    (fetched : Option NativeFramesResponse) :
    InstrumentationState × Option (Option FramesMeasurements) :=
  let finishFrames : Option NativeFramesResponse :=
    match startFrames with
    | some _ => fetched
    | none => none
  let st1 :=
    { st with finishFrames := st.finishFrames.set traceId ⟨now, finishFrames⟩ }
  match st1.framesListeners traceId with
  | some listener =>
      ({ st1 with framesListeners := st1.framesListeners.del traceId },
       some (prepareMeasurements st1 traceId listener.finalEndTimestamp
         listener.startFrames))
  | none => (st1, none)

/-- `_cancelFinishFrames(transaction)` (lines 187-195): the 2000 ms sweep
scheduled by `_fetchFramesForTransaction`, deleting a still-unconsumed
finish record. -/
def cancelFinishFrames (st : InstrumentationState) (traceId : String) :
    InstrumentationState :=
  if (st.finishFrames traceId).isSome then
    { st with finishFrames := st.finishFrames.del traceId }
  else st

/-- The `data` object of a trace context, restricted to the one key this
subsystem reads and deletes: `__startFrames`. -/
structure TraceContextData where
  startFrames : Option NativeFramesResponse
deriving DecidableEq

/-- The trace context of an event (`event.contexts.trace`). -/
structure TraceContext where
  trace_id : String
  data : Option TraceContextData
deriving DecidableEq

/-- `event.contexts`. -/
structure Contexts where
  trace : Option TraceContext
deriving DecidableEq

/-- A transaction event, restricted to the fields `_processEvent` touches. -/
structure Event where
  type_ : Option String
  transaction : Option String
  contexts : Option Contexts
  timestamp : Option ℚ
  measurements : Option (SMap MeasurementValue)

/-- The outer guard of `_processEvent` (lines 202-207):
`event.type === "transaction" && event.transaction && event.contexts &&
event.contexts.trace`, yielding the trace context when it passes. -/
def eventTraceContext (ev : Event) : Option TraceContext :=
  if ev.type_ = some "transaction" ∧ jsTruthyStr ev.transaction = true then
    match ev.contexts with
    | some contexts => contexts.trace
    | none => none
  else none

/-- The inner guard of `_processEvent` (line 217):
`traceId && traceContext.data?.__startFrames && event.timestamp`, yielding
the start frames and the timestamp when it passes. -/
def eventFramesData (tc : TraceContext) (timestamp : Option ℚ) :
    Option (NativeFramesResponse × ℚ) :=
  if tc.trace_id = "" then none
  else
    match tc.data with
    | none => none
    | some d =>
        match d.startFrames with
        | none => none
        | some sf =>
            match timestamp with
            | some t => if t = 0 then none else some (sf, t)
            | none => none

/-- `event.measurements = { ...(event.measurements ?? {}), ...measurements }`
(lines 239-242): the three frame keys are written over the existing
measurement map (an empty one when the field was absent). -/
def setEventMeasurements (ev : Event) (m : FramesMeasurements) : Event :=
  let old : SMap MeasurementValue :=
    match ev.measurements with
    | some mm => mm
    | none => SMap.empty
  { ev with
    measurements :=
      some (((old.set "frames_total" m.frames_total).set "frames_frozen"
        m.frames_frozen).set "frames_slow" m.frames_slow) }

/-- `delete traceContext.data.__startFrames` (line 247). -/
def removeStartFrames (ev : Event) : Event :=
  match ev.contexts with
  | some contexts =>
      match contexts.trace with
      | some tc =>
          match tc.data with
          | some d =>
              { ev with
                contexts := some
                  { contexts with
                    trace := some { tc with data := some { d with startFrames := none } } } }
          | none => ev
      | none => ev
  | none => ev

/-- Lines 224-248 of `_processEvent`, run once the awaited measurements are
available: on success merge them into the event and delete the consumed
finish record; in both cases delete the `__startFrames` attachment. -/
def finishProcessEvent (st : InstrumentationState) (ev : Event)
    (traceId : String) (measurements : Option FramesMeasurements) :
    InstrumentationState × Event :=
  match measurements with
  | some m =>
      ({ st with finishFrames := st.finishFrames.del traceId },
       removeStartFrames (setEventMeasurements ev m))
  | none => (st, removeStartFrames ev)

/-- Outcome of `_processEvent`: either the (possibly updated) event is
returned, or the processor is suspended awaiting the finish record for
`traceId`, with a waiter registered in the carried state; the resumption
runs `finishProcessEvent` on the delivered measurements. -/
inductive ProcessResult where
  | done (st : InstrumentationState) (ev : Event)
  | awaiting (st : InstrumentationState) (traceId : String)
      (finalEndTimestamp : ℚ) (startFrames : NativeFramesResponse)

/-- The state carried by a `ProcessResult`. -/
def ProcessResult.state (r : ProcessResult) : InstrumentationState :=
  match r with
  | .done st _ => st
  | .awaiting st _ _ _ => st

/-- The state after a `getFramesMeasurements` call: unchanged on the
immediate path, the carried state on the suspended path. -/
def GetFramesResult.stateOr (r : GetFramesResult)
    (st : InstrumentationState) : InstrumentationState :=
  match r with
  | .immediate _ => st
  | .suspended st2 => st2

/-- `_processEvent(event)` (lines 201-252). -/
def processEvent (st : InstrumentationState) (ev : Event) : ProcessResult :=
  match eventTraceContext ev with
  | none => .done st ev
  | some traceContext =>
      match eventFramesData traceContext ev.timestamp with
      | none => .done st ev
      | some (startFrames, t) =>
          match getFramesMeasurements st traceContext.trace_id t startFrames with
          | .immediate m =>
              let r := finishProcessEvent st ev traceContext.trace_id m
              .done r.1 r.2
          | .suspended st2 =>
              .awaiting st2 traceContext.trace_id t startFrames

/-! ## Specification-side selection policy

`selectFinishSnapshot_spec` restates, for the refinement claim about
`_prepareMeasurements`, the spec's candidate order: first the finish record
stored for the exact trace id, eligible iff it carries a snapshot and its
timestamp is within the tolerance of `finalEndTimestamp`; else the orphan
span-finish record under the same tolerance; else no snapshot. -/

/-- The per-trace finish record as an eligible candidate: it must exist,
carry a non-null snapshot (a null-snapshot record is "finished, but
ineligible"), and be within the tolerance window. -/
def eligibleFinishRecord (st : InstrumentationState) (traceId : String)
    (finalEndTimestamp : ℚ) : Option NativeFramesResponse :=
  match st.finishFrames traceId with
  | some finish =>
      match finish.nativeFrames with
      | some nf =>
          if |finish.timestamp - finalEndTimestamp| < MARGIN_OF_ERROR_SECONDS
          then some nf
          else none
      | none => none
  | none => none

/-- The orphan span-finish record as an eligible candidate: it must exist
and be within the tolerance window. -/
def eligibleOrphanRecord (st : InstrumentationState) (finalEndTimestamp : ℚ) :
    Option NativeFramesResponse :=
  match st.lastSpanFinishFrames with
  | some l =>
      if |l.timestamp - finalEndTimestamp| < MARGIN_OF_ERROR_SECONDS
      then some l.nativeFrames
      else none
  | none => none

/-- The spec's selection order: the exact-trace finish record first, the
orphan record second, nothing third. -/
def selectFinishSnapshot_spec (st : InstrumentationState) (traceId : String)
    (finalEndTimestamp : ℚ) : Option NativeFramesResponse :=
  (eligibleFinishRecord st traceId finalEndTimestamp).orElse
    (fun _ => eligibleOrphanRecord st finalEndTimestamp)

/-- Lookup in an event's measurement map, treating a missing map as empty
(as `event.measurements ?? {}` does). -/
def eventMeasLookup (ev : Event) (k : String) : Option MeasurementValue :=
  match ev.measurements with
  | some mm => mm k
  | none => none

/-! ## Concrete fixtures used by witnesses and counterexamples -/

/-- A finish snapshot: 140 total, 5 slow, 1 frozen frames. -/
def snapA : NativeFramesResponse := ⟨140, 5, 1⟩

/-- A start snapshot: 100 total, 2 slow, 0 frozen frames. -/
def startA : NativeFramesResponse := ⟨100, 2, 0⟩

/-- A finish snapshot with all counters below those of `startB`. -/
def snapB : NativeFramesResponse := ⟨5, 0, 0⟩

/-- A start snapshot above `snapB` in every counter. -/
def startB : NativeFramesResponse := ⟨10, 2, 1⟩

/-- The measurements produced by reconciling `snapB` against `startB`:
all three deltas are negative. -/
def mNegDelta : FramesMeasurements := ⟨⟨-5⟩, ⟨-2⟩, ⟨-1⟩⟩

/-- A state holding a finish record for trace `"t1"` timestamped exactly
0.05 s after the transaction end time 10, and no orphan record. -/
def stExactMargin : InstrumentationState :=
  { finishFrames := SMap.empty.set "t1" ⟨10 + 5 / 100, some snapA⟩
    framesListeners := SMap.empty
    lastSpanFinishFrames := none }

/-- A state holding a finish record for trace `"t1"` timestamped 0.01 s
after the transaction end time 10. -/
def stWithinMargin : InstrumentationState :=
  { finishFrames := SMap.empty.set "t1" ⟨10 + 1 / 100, some snapA⟩
    framesListeners := SMap.empty
    lastSpanFinishFrames := none }

/-- A state whose finish record for `"t1"` is timestamped exactly at the
end time 10 and carries the shrunken snapshot `snapB`. -/
def stNegDelta : InstrumentationState :=
  { finishFrames := SMap.empty.set "t1" ⟨10, some snapB⟩
    framesListeners := SMap.empty
    lastSpanFinishFrames := none }

/-- A state whose finish record for `"t1"` has a null snapshot while the
orphan record is timestamped 0.02 s after the end time 10. -/
def stNullSnapshot : InstrumentationState :=
  { finishFrames := SMap.empty.set "t1" ⟨12, none⟩
    framesListeners := SMap.empty
    lastSpanFinishFrames := some ⟨10 + 2 / 100, snapA⟩ }

/-- A state with a waiter registered for `"t1"` and no finish record. -/
def stListener : InstrumentationState :=
  { finishFrames := SMap.empty
    framesListeners := SMap.empty.set "t1" ⟨10, startA⟩
    lastSpanFinishFrames := none }

/-- Trace-context data carrying the `__startFrames` attachment `startA`. -/
def dataStart : TraceContextData := ⟨some startA⟩

/-- A trace context for trace `"t1"` with the start-frames attachment. -/
def tcReady : TraceContext := ⟨"t1", some dataStart⟩

/-- A transaction event for trace `"t1"` ending at time 10, with the
start-frames attachment and no prior measurements. -/
def evReady : Event :=
  { type_ := some "transaction"
    transaction := some "tx"
    contexts := some ⟨some tcReady⟩
    timestamp := some 10
    measurements := none }

/-- `evReady` with a pre-existing unrelated measurement key. -/
def evWithMeas : Event :=
  { evReady with measurements := some (SMap.empty.set "app_start_cold" ⟨7⟩) }

/-- A trace context whose data object lacks the start-frames attachment. -/
def tcNoStart : TraceContext := ⟨"t1", some ⟨none⟩⟩

/-- A transaction event whose trace context lacks the start-frames
attachment. -/
def evNoStart : Event :=
  { type_ := some "transaction"
    transaction := some "tx"
    contexts := some ⟨some tcNoStart⟩
    timestamp := some 10
    measurements := none }

/-- A state holding an in-tolerance finish record with snapshot for
`"t1"` (timestamp 0.01 s past the end time 10) and no waiter. -/
def stReady : InstrumentationState :=
  { finishFrames := SMap.empty.set "t1" ⟨10 + 1 / 100, some snapA⟩
    framesListeners := SMap.empty
    lastSpanFinishFrames := none }

/-! ## Helper lemmas -/

/-- Characterisation of `_prepareMeasurements` as the spec's ordered
candidate selection (shared by several claim proofs). -/
theorem prepareMeasurements_eq_select (st : InstrumentationState)
    (traceId : String) (finalEndTimestamp : ℚ)
    (startFrames : NativeFramesResponse) :
    prepareMeasurements st traceId finalEndTimestamp startFrames =
      Option.map (fun nf => computeMeasurements nf startFrames)
        (selectFinishSnapshot_spec st traceId finalEndTimestamp) := by
  unfold prepareMeasurements selectFinishSnapshot_spec eligibleFinishRecord
    eligibleOrphanRecord lastSpanFallback
  cases hf : st.finishFrames traceId with
  | none =>
      cases ho : st.lastSpanFinishFrames with
      | none => rfl
      | some l =>
          by_cases h : |l.timestamp - finalEndTimestamp| < MARGIN_OF_ERROR_SECONDS <;>
            simp [h, Option.orElse]
  | some finish =>
      cases hnf : finish.nativeFrames with
      | none =>
          cases ho : st.lastSpanFinishFrames with
          | none => simp [hnf, Option.orElse]
          | some l =>
              by_cases h : |l.timestamp - finalEndTimestamp| < MARGIN_OF_ERROR_SECONDS <;>
                simp [hnf, h, Option.orElse]
      | some nf =>
          by_cases hm : |finish.timestamp - finalEndTimestamp| < MARGIN_OF_ERROR_SECONDS
          · simp [hnf, hm, Option.orElse]
          · cases ho : st.lastSpanFinishFrames with
            | none => simp [hnf, hm, Option.orElse]
            | some l =>
                by_cases h : |l.timestamp - finalEndTimestamp| < MARGIN_OF_ERROR_SECONDS <;>
                  simp [hnf, hm, h, Option.orElse]

/-- An `orElse` chain of two candidates is `some` through the first or,
failing that, through the second. -/
theorem orElse_eq_some_cases {α : Type} (a : Option α) (f : Unit → Option α)
    (x : α) (h : a.orElse f = some x) :
    a = some x ∨ (a = none ∧ f () = some x) := by
  cases a with
  | some y => left; simpa [Option.orElse] using h
  | none => right; exact ⟨rfl, by simpa [Option.orElse] using h⟩

/-- Inversion for an eligible per-trace finish record. -/
theorem eligibleFinishRecord_some {st : InstrumentationState}
    {traceId : String} {finalEndTimestamp : ℚ} {nf : NativeFramesResponse}
    (h : eligibleFinishRecord st traceId finalEndTimestamp = some nf) :
    ∃ finish, st.finishFrames traceId = some finish ∧
      finish.nativeFrames = some nf ∧
      |finish.timestamp - finalEndTimestamp| < MARGIN_OF_ERROR_SECONDS := by
  unfold eligibleFinishRecord at h
  split at h
  next finish heq =>
    split at h
    next nf2 hnf =>
      split at h
      next hm => exact ⟨finish, heq, hnf.trans h, hm⟩
      next hm => exact absurd h (by simp)
    next hnf => exact absurd h (by simp)
  next => exact absurd h (by simp)

/-- Inversion for an eligible orphan span-finish record. -/
theorem eligibleOrphanRecord_some {st : InstrumentationState}
    {finalEndTimestamp : ℚ} {nf : NativeFramesResponse}
    (h : eligibleOrphanRecord st finalEndTimestamp = some nf) :
    ∃ l, st.lastSpanFinishFrames = some l ∧ l.nativeFrames = nf ∧
      |l.timestamp - finalEndTimestamp| < MARGIN_OF_ERROR_SECONDS := by
  unfold eligibleOrphanRecord at h
  split at h
  next l heq =>
    split at h
    next hm => exact ⟨l, heq, Option.some_inj.mp h, hm⟩
    next hm => exact absurd h (by simp)
  next => exact absurd h (by simp)

/-- Inversion for a suspended `getFramesMeasurements` call: the returned
state is the input state with a listener registered for the trace. -/
theorem getFramesMeasurements_suspended_inv {st st2 : InstrumentationState}
    {traceId : String} {finalEndTimestamp : ℚ}
    {startFrames : NativeFramesResponse}
    (h : getFramesMeasurements st traceId finalEndTimestamp startFrames =
      .suspended st2) :
    st2 = { st with
      framesListeners :=
        st.framesListeners.set traceId ⟨finalEndTimestamp, startFrames⟩ } := by
  unfold getFramesMeasurements at h
  split at h
  · exact absurd h (by simp)
  · injection h with h2
    exact h2.symm

/-- Inversion of the outer `_processEvent` guard. -/
theorem eventTraceContext_some_inv {ev : Event} {tc : TraceContext}
    (h : eventTraceContext ev = some tc) :
    ∃ contexts, ev.contexts = some contexts ∧ contexts.trace = some tc := by
  unfold eventTraceContext at h
  split at h
  · cases hctx : ev.contexts with
    | none => rw [hctx] at h; exact absurd h (by simp)
    | some contexts =>
        rw [hctx] at h
        exact ⟨contexts, rfl, by simpa using h⟩
  · exact absurd h (by simp)

/-- Computation of the outer `_processEvent` guard on a passing event. -/
theorem eventTraceContext_eq_some {ev : Event} {contexts : Contexts}
    {tc : TraceContext}
    (htype : ev.type_ = some "transaction")
    (htx : jsTruthyStr ev.transaction = true)
    (hctx : ev.contexts = some contexts)
    (htrace : contexts.trace = some tc) :
    eventTraceContext ev = some tc := by
  simp [eventTraceContext, htype, htx, hctx, htrace]

/-- Computation of the inner `_processEvent` guard on a passing event. -/
theorem eventFramesData_eq_some {tc : TraceContext} {d : TraceContextData}
    {sf : NativeFramesResponse} {t : ℚ} {ts : Option ℚ}
    (hid : tc.trace_id ≠ "") (hdata : tc.data = some d)
    (hsf : d.startFrames = some sf) (hts : ts = some t) (ht0 : t ≠ 0) :
    eventFramesData tc ts = some (sf, t) := by
  simp [eventFramesData, hid, hdata, hsf, hts, ht0]

/-- When a finish record is present, `_processEvent` completes in one
step through `finishProcessEvent`. -/
theorem processEvent_immediate {st : InstrumentationState} {ev : Event}
    {tc : TraceContext} {sf : NativeFramesResponse} {t : ℚ}
    (hetc : eventTraceContext ev = some tc)
    (hefd : eventFramesData tc ev.timestamp = some (sf, t))
    (hhas : (st.finishFrames tc.trace_id).isSome = true) :
    processEvent st ev =
      .done
        (finishProcessEvent st ev tc.trace_id
          (prepareMeasurements st tc.trace_id t sf)).1
        (finishProcessEvent st ev tc.trace_id
          (prepareMeasurements st tc.trace_id t sf)).2 := by
  simp [processEvent, hetc, hefd, getFramesMeasurements, hhas]

/-- `removeStartFrames` nulls out the attachment and keeps the rest of the
trace context. -/
theorem removeStartFrames_contexts {ev : Event} {contexts : Contexts}
    {tc : TraceContext} {d : TraceContextData}
    (hctx : ev.contexts = some contexts) (htrace : contexts.trace = some tc)
    (hdata : tc.data = some d) :
    (removeStartFrames ev).contexts =
      some ⟨some { tc with data := some ⟨none⟩ }⟩ := by
  simp [removeStartFrames, hctx, htrace, hdata]

/-- Computation of `_prepareMeasurements` when the per-trace finish record
hits: present, with a snapshot, within the margin. -/
theorem prepareMeasurements_finish_hit {st : InstrumentationState}
    {traceId : String} {finalEndTimestamp : ℚ}
    {startFrames : NativeFramesResponse} {finish : FinishRecord}
    {nf : NativeFramesResponse}
    (hfin : st.finishFrames traceId = some finish)
    (hnf : finish.nativeFrames = some nf)
    (hmargin : |finish.timestamp - finalEndTimestamp| < MARGIN_OF_ERROR_SECONDS) :
    prepareMeasurements st traceId finalEndTimestamp startFrames =
      some (computeMeasurements nf startFrames) := by
  unfold prepareMeasurements
  simp [hfin, hnf, hmargin]

/-- `removeStartFrames` leaves the measurements field alone. -/
theorem removeStartFrames_measurements (ev : Event) :
    (removeStartFrames ev).measurements = ev.measurements := by
  unfold removeStartFrames
  split
  · split
    · split
      · rfl
      · rfl
    · rfl
  · rfl

/-! ## Claim theorems -/

/-- C1: `_prepareMeasurements(traceId, finalEndTimestamp, startFrames)`
selects the finish snapshot by trying candidates in the spec's fixed order
— first the finish record stored for that exact trace id, eligible iff it
is within the 0.05 s tolerance of `finalEndTimestamp` (and carries a
snapshot); else the orphan span-finish record iff within the same
tolerance; else null, with no measurements attached. -/
theorem prepareMeasurements_selection_order (st : InstrumentationState)
    (traceId : String) (finalEndTimestamp : ℚ)
    (startFrames : NativeFramesResponse) :
    prepareMeasurements st traceId finalEndTimestamp startFrames =
      Option.map (fun nf => computeMeasurements nf startFrames)
        (selectFinishSnapshot_spec st traceId finalEndTimestamp) :=
  prepareMeasurements_eq_select st traceId finalEndTimestamp startFrames

/-- C2 counterexample: a finish record whose timestamp differs from
`finalEndTimestamp` by exactly 0.05 s is rejected — with no orphan record
present, selection returns null instead of accepting the record as the
claim states. -/
theorem exact_margin_rejected :
    ((10 : ℚ) + 5 / 100) - 10 = MARGIN_OF_ERROR_SECONDS ∧
    prepareMeasurements stExactMargin "t1" 10 startA = none := by
  have hdiff : ((10 : ℚ) + 5 / 100) - 10 = MARGIN_OF_ERROR_SECONDS := by
    norm_num [MARGIN_OF_ERROR_SECONDS]
  have habs : ¬ (|(5 : ℚ) / 100| < MARGIN_OF_ERROR_SECONDS) := by
    rw [abs_of_pos (by norm_num)]
    norm_num [MARGIN_OF_ERROR_SECONDS]
  refine ⟨hdiff, ?_⟩
  unfold prepareMeasurements stExactMargin lastSpanFallback
  simp [SMap.set, SMap.empty, habs]

/-- C2 (amended): for a stored finish record carrying a snapshot, the
tolerance test is strict — a timestamp difference strictly below 0.05 s is
accepted, while a difference of exactly 0.05 s or more (such as
0.0500001 s) is rejected, and selection falls through to the orphan
candidate or to null. -/
theorem margin_boundary_strict (st : InstrumentationState) (traceId : String)
    (finalEndTimestamp : ℚ) (startFrames : NativeFramesResponse)
    (finish : FinishRecord) (nf : NativeFramesResponse)
    (hfin : st.finishFrames traceId = some finish)
    (hnf : finish.nativeFrames = some nf) :
    (|finish.timestamp - finalEndTimestamp| < MARGIN_OF_ERROR_SECONDS →
        prepareMeasurements st traceId finalEndTimestamp startFrames =
          some (computeMeasurements nf startFrames)) ∧
    (MARGIN_OF_ERROR_SECONDS ≤ |finish.timestamp - finalEndTimestamp| →
        prepareMeasurements st traceId finalEndTimestamp startFrames =
          Option.map (fun x => computeMeasurements x startFrames)
            (lastSpanFallback st finalEndTimestamp)) := by
  constructor <;> intro h
  · unfold prepareMeasurements
    simp [hfin, hnf, h]
  · unfold prepareMeasurements
    simp only [hfin, hnf, if_neg (not_lt.mpr h)]
    cases lastSpanFallback st finalEndTimestamp <;> simp

/-- Witness for the amended tolerance theorem: a record 0.01 s past the
end time is accepted and yields the deltas of `snapA` against `startA`. -/
theorem margin_boundary_strict_witness :
    prepareMeasurements stWithinMargin "t1" 10 startA =
      some (computeMeasurements snapA startA) :=
  (margin_boundary_strict stWithinMargin "t1" 10 startA
      ⟨10 + 1 / 100, some snapA⟩ snapA
      (by simp [stWithinMargin, SMap.set]) rfl).1
    (by rw [show ((10 : ℚ) + 1 / 100) - 10 = 1 / 100 by ring,
          abs_of_pos (by norm_num)]
        norm_num [MARGIN_OF_ERROR_SECONDS])

/-- C3: whenever `_prepareMeasurements` returns measurements, each value is
exactly the difference finish − start of the corresponding counters of the
selected snapshot — no clamping, so negative values pass through when the
finish counters are smaller. -/
theorem measurements_are_unclamped_deltas (st : InstrumentationState)
    (traceId : String) (finalEndTimestamp : ℚ)
    (startFrames : NativeFramesResponse) (m : FramesMeasurements)
    (h : prepareMeasurements st traceId finalEndTimestamp startFrames = some m) :
    ∃ nf : NativeFramesResponse,
      ((∃ finish, st.finishFrames traceId = some finish ∧
          finish.nativeFrames = some nf) ∨
        (∃ l, st.lastSpanFinishFrames = some l ∧ l.nativeFrames = nf)) ∧
      m.frames_total.value = nf.totalFrames - startFrames.totalFrames ∧
      m.frames_slow.value = nf.slowFrames - startFrames.slowFrames ∧
      m.frames_frozen.value = nf.frozenFrames - startFrames.frozenFrames := by
  rw [prepareMeasurements_eq_select] at h
  unfold selectFinishSnapshot_spec at h
  cases hsel : (eligibleFinishRecord st traceId finalEndTimestamp).orElse
      (fun _ => eligibleOrphanRecord st finalEndTimestamp) with
  | none => rw [hsel] at h; exact absurd h (by simp)
  | some nf =>
      rw [hsel] at h
      have hm : m = computeMeasurements nf startFrames := by
        simpa using h.symm
      rcases orElse_eq_some_cases _ _ _ hsel with hfin | ⟨-, horph⟩
      · rcases eligibleFinishRecord_some hfin with ⟨finish, h1, h2, -⟩
        exact ⟨nf, Or.inl ⟨finish, h1, h2⟩, by rw [hm]; rfl,
          by rw [hm]; rfl, by rw [hm]; rfl⟩
      · rcases eligibleOrphanRecord_some horph with ⟨l, h1, h2, -⟩
        exact ⟨nf, Or.inr ⟨l, h1, h2⟩, by rw [hm]; rfl,
          by rw [hm]; rfl, by rw [hm]; rfl⟩

/-- Witness for the delta theorem at a concrete input where every finish
counter is below its start counter: the reported values are negative. -/
theorem measurements_are_unclamped_deltas_witness :
    ∃ nf : NativeFramesResponse,
      ((∃ finish, stNegDelta.finishFrames "t1" = some finish ∧
          finish.nativeFrames = some nf) ∨
        (∃ l, stNegDelta.lastSpanFinishFrames = some l ∧ l.nativeFrames = nf)) ∧
      mNegDelta.frames_total.value = nf.totalFrames - startB.totalFrames ∧
      mNegDelta.frames_slow.value = nf.slowFrames - startB.slowFrames ∧
      mNegDelta.frames_frozen.value = nf.frozenFrames - startB.frozenFrames :=
  measurements_are_unclamped_deltas stNegDelta "t1" 10 startB mNegDelta
    (by unfold prepareMeasurements stNegDelta
        simp [SMap.set, SMap.empty, MARGIN_OF_ERROR_SECONDS,
          computeMeasurements, snapB, startB, mNegDelta]
        norm_num)

/-- C10: a stored finish record with a null snapshot is not terminal —
selection falls through to the orphan span-finish record, and when the
orphan's timestamp is within the 0.05 s tolerance its snapshot produces the
measurements. -/
theorem null_snapshot_falls_through (st : InstrumentationState)
    (traceId : String) (finalEndTimestamp : ℚ)
    (startFrames : NativeFramesResponse) (ts : ℚ) (l : SpanFinishRecord)
    (hfin : st.finishFrames traceId = some ⟨ts, none⟩)
    (horph : st.lastSpanFinishFrames = some l)
    (hmargin : |l.timestamp - finalEndTimestamp| < MARGIN_OF_ERROR_SECONDS) :
    prepareMeasurements st traceId finalEndTimestamp startFrames =
      some (computeMeasurements l.nativeFrames startFrames) := by
  unfold prepareMeasurements lastSpanFallback
  simp [hfin, horph, hmargin]

/-- Witness for the null-snapshot fallthrough at a concrete state: the
trace's own record is `{timestamp 12, null}` yet the orphan snapshot
(0.02 s past the end time 10) yields measurements. -/
theorem null_snapshot_falls_through_witness :
    prepareMeasurements stNullSnapshot "t1" 10 startA =
      some (computeMeasurements snapA startA) :=
  null_snapshot_falls_through stNullSnapshot "t1" 10 startA 12
    ⟨10 + 2 / 100, snapA⟩
    (by simp [stNullSnapshot, SMap.set]) rfl
    (by rw [show ((10 : ℚ) + 2 / 100) - 10 = 2 / 100 by ring,
          abs_of_pos (by norm_num)]
        norm_num [MARGIN_OF_ERROR_SECONDS])

/-- C4: when `_getFramesMeasurements` is called for a trace with no finish
record yet, it registers a one-shot waiter for that trace and suspends; the
2000 ms timeout removes the waiter and resolves with null rather than
hanging. -/
theorem waiter_timeout_resolves_null (st : InstrumentationState)
    (traceId : String) (finalEndTimestamp : ℚ)
    (startFrames : NativeFramesResponse)
    (h : st.finishFrames traceId = none) :
    ∃ st2,
      getFramesMeasurements st traceId finalEndTimestamp startFrames =
        .suspended st2 ∧
      st2.framesListeners traceId = some ⟨finalEndTimestamp, startFrames⟩ ∧
      st2.finishFrames = st.finishFrames ∧
      (waiterTimeout st2 traceId).2 = none ∧
      (waiterTimeout st2 traceId).1.framesListeners traceId = none := by
  refine ⟨{ st with
      framesListeners :=
        st.framesListeners.set traceId ⟨finalEndTimestamp, startFrames⟩ },
    ?_, ?_, rfl, rfl, ?_⟩
  · simp [getFramesMeasurements, h]
  · simp [SMap.set]
  · simp [waiterTimeout, SMap.del]

/-- Witness for the waiter-timeout theorem, starting from the state with no
records at all. -/
theorem waiter_timeout_resolves_null_witness :
    ∃ st2,
      getFramesMeasurements initialState "t1" 10 startA = .suspended st2 ∧
      st2.framesListeners "t1" = some ⟨10, startA⟩ ∧
      st2.finishFrames = initialState.finishFrames ∧
      (waiterTimeout st2 "t1").2 = none ∧
      (waiterTimeout st2 "t1").1.framesListeners "t1" = none :=
  waiter_timeout_resolves_null initialState "t1" 10 startA rfl

/-- C5: the finish-snapshot workflow for a transaction without a
start-frames attachment performs no snapshot fetch (its outcome is
independent of what a fetch would return), still stores the finish record
`{timestamp, snapshot: null}` under the trace id, and invokes and removes
any registered waiter for that trace. -/
theorem no_start_frames_still_records (st : InstrumentationState)
    (traceId : String) (now : ℚ)
    (fetched fetched2 : Option NativeFramesResponse) :
    fetchFramesForTransaction st traceId none now fetched =
      fetchFramesForTransaction st traceId none now fetched2 ∧
    (fetchFramesForTransaction st traceId none now fetched).1.finishFrames
        traceId = some ⟨now, none⟩ ∧
    (∀ l, st.framesListeners traceId = some l →
      (fetchFramesForTransaction st traceId none now fetched).2 =
        some (prepareMeasurements
          { st with finishFrames := st.finishFrames.set traceId ⟨now, none⟩ }
          traceId l.finalEndTimestamp l.startFrames) ∧
      (fetchFramesForTransaction st traceId none now
          fetched).1.framesListeners traceId = none) := by
  refine ⟨rfl, ?_, ?_⟩
  · cases hl : st.framesListeners traceId <;>
      simp [fetchFramesForTransaction, hl, SMap.set]
  · intro l hl
    constructor <;> simp [fetchFramesForTransaction, hl, SMap.set, SMap.del]

/-- Witness for the no-start-frames workflow at a state with a waiter
registered for the trace: the record is stored with a null snapshot, the
waiter is fed the reconciliation result and removed. -/
theorem no_start_frames_still_records_witness :
    (fetchFramesForTransaction stListener "t1" none 11 (some snapA)).1.finishFrames
        "t1" = some ⟨11, none⟩ ∧
    (fetchFramesForTransaction stListener "t1" none 11 (some snapA)).2 =
      some (prepareMeasurements
        { stListener with
          finishFrames := stListener.finishFrames.set "t1" ⟨11, none⟩ }
        "t1" 10 startA) ∧
    (fetchFramesForTransaction stListener "t1" none 11
        (some snapA)).1.framesListeners "t1" = none := by
  have h := no_start_frames_still_records stListener "t1" 11 (some snapA) none
  have h3 := h.2.2 ⟨10, startA⟩ (by simp [stListener, SMap.set])
  exact ⟨h.2.1, h3.1, h3.2⟩

/-- C9: the orphan span-finish slot holds at most one snapshot (it is a
single `Option`-valued slot): a qualifying untimed span finish whose fetch
succeeds overwrites it with the newly timestamped snapshot, every other
outcome of a span finish leaves it untouched, and no other operation of the
subsystem ever modifies or deletes it — the last value persists until
overwritten. -/
theorem orphan_slot_persistent :
    (∀ st now nf,
      (onSpanFinish st none now (some nf)).lastSpanFinishFrames =
        some ⟨now, nf⟩) ∧
    (∀ st endTimestamp now fetched,
      (onSpanFinish st endTimestamp now fetched).lastSpanFinishFrames =
        st.lastSpanFinishFrames ∨
      ∃ nf, fetched = some nf ∧
        (onSpanFinish st endTimestamp now fetched).lastSpanFinishFrames =
          some ⟨now, nf⟩) ∧
    (∀ st traceId finalEndTimestamp startFrames,
      ((getFramesMeasurements st traceId finalEndTimestamp
          startFrames).stateOr st).lastSpanFinishFrames =
        st.lastSpanFinishFrames) ∧
    (∀ st traceId,
      (waiterTimeout st traceId).1.lastSpanFinishFrames =
        st.lastSpanFinishFrames) ∧
    (∀ st traceId startFrames now fetched,
      (fetchFramesForTransaction st traceId startFrames now
          fetched).1.lastSpanFinishFrames = st.lastSpanFinishFrames) ∧
    (∀ st traceId,
      (cancelFinishFrames st traceId).lastSpanFinishFrames =
        st.lastSpanFinishFrames) ∧
    (∀ st ev traceId m,
      (finishProcessEvent st ev traceId m).1.lastSpanFinishFrames =
        st.lastSpanFinishFrames) ∧
    (∀ st ev,
      ((processEvent st ev).state).lastSpanFinishFrames =
        st.lastSpanFinishFrames) := by
  refine ⟨?_, ?_, ?_, ?_, ?_, ?_, ?_, ?_⟩
  · intro st now nf; rfl
  · intro st endTimestamp now fetched
    unfold onSpanFinish
    by_cases ht : jsTruthyNum endTimestamp = true
    · left; simp [ht]
    · cases fetched with
      | none => left; simp [ht]
      | some nf =>
          right
          exact ⟨nf, rfl, by simp [eq_false_of_ne_true ht]⟩
  · intro st traceId finalEndTimestamp startFrames
    unfold getFramesMeasurements
    by_cases hf : (st.finishFrames traceId).isSome = true <;>
      simp [hf, GetFramesResult.stateOr]
  · intro st traceId; rfl
  · intro st traceId startFrames now fetched
    unfold fetchFramesForTransaction
    cases hl : st.framesListeners traceId <;> simp [hl]
  · intro st traceId
    unfold cancelFinishFrames
    by_cases hf : (st.finishFrames traceId).isSome = true <;> simp [hf]
  · intro st ev traceId m
    cases m <;> rfl
  · intro st ev
    unfold processEvent
    split
    · rfl
    · split
      · rfl
      · split
        next m _ =>
          cases m <;> simp [finishProcessEvent, ProcessResult.state]
        next st2 heq =>
          rw [ProcessResult.state, getFramesMeasurements_suspended_inv heq]

/-- C7: a transaction event whose trace context lacks the start-frames
attachment triggers no snapshot fetch and no reconciliation wait — the
processor returns the state and the event unchanged, measurements
untouched. -/
theorem no_start_frames_passthrough (st : InstrumentationState) (ev : Event)
    (contexts : Contexts) (tc : TraceContext)
    (hctx : ev.contexts = some contexts)
    (htrace : contexts.trace = some tc)
    (hnostart : tc.data = none ∨ ∃ d, tc.data = some d ∧ d.startFrames = none) :
    processEvent st ev = .done st ev := by
  unfold processEvent
  cases hc : eventTraceContext ev with
  | none => rfl
  | some tc2 =>
      obtain ⟨c2, hc2, ht2⟩ := eventTraceContext_some_inv hc
      rw [hctx] at hc2
      injection hc2 with hc2
      rw [← hc2] at ht2
      rw [htrace] at ht2
      injection ht2 with ht2
      subst ht2
      have hnone : eventFramesData tc ev.timestamp = none := by
        unfold eventFramesData
        by_cases hid : tc.trace_id = ""
        · simp [hid]
        · rcases hnostart with h | ⟨d, hd, hsf⟩
          · simp [hid, h]
          · simp [hid, hd, hsf]
      simp [hnone]

/-- Witness for the passthrough theorem: an event whose trace-context data
object has no start-frames key passes through unchanged. -/
theorem no_start_frames_passthrough_witness :
    processEvent initialState evNoStart = .done initialState evNoStart :=
  no_start_frames_passthrough initialState evNoStart ⟨some tcNoStart⟩
    tcNoStart rfl rfl (Or.inr ⟨⟨none⟩, rfl, rfl⟩)

/-- C6: the maps are keyed by trace identifier, so each trace has at most
one finish record and one waiter; after a successful reconciliation for a
trace (here with no waiter pending, since a waiter is removed the moment it
is fed), both the finish record and the waiter slot for that trace are
empty, and a second reconciliation attempt finds no record — it suspends
and its timeout yields null. -/
theorem single_consumption (st : InstrumentationState) (ev : Event)
    (contexts : Contexts) (tc : TraceContext) (d : TraceContextData)
    (sf : NativeFramesResponse) (t : ℚ) (fin : FinishRecord)
    (m : FramesMeasurements)
    (htype : ev.type_ = some "transaction")
    (htx : jsTruthyStr ev.transaction = true)
    (hctx : ev.contexts = some contexts)
    (htrace : contexts.trace = some tc)
    (hid : tc.trace_id ≠ "")
    (hdata : tc.data = some d)
    (hsf : d.startFrames = some sf)
    (hts : ev.timestamp = some t) (ht0 : t ≠ 0)
    (hnolist : st.framesListeners tc.trace_id = none)
    (hfin : st.finishFrames tc.trace_id = some fin)
    (hm : prepareMeasurements st tc.trace_id t sf = some m) :
    ∃ st2 ev2, processEvent st ev = .done st2 ev2 ∧
      st2.finishFrames tc.trace_id = none ∧
      st2.framesListeners tc.trace_id = none ∧
      ∀ finalEndTimestamp2 startFrames2, ∃ st3,
        getFramesMeasurements st2 tc.trace_id finalEndTimestamp2
          startFrames2 = .suspended st3 ∧
        (waiterTimeout st3 tc.trace_id).2 = none := by
  have hetc := eventTraceContext_eq_some htype htx hctx htrace
  have hefd := eventFramesData_eq_some hid hdata hsf hts ht0
  have hhas : (st.finishFrames tc.trace_id).isSome = true := by
    rw [hfin]; rfl
  refine ⟨{ st with finishFrames := st.finishFrames.del tc.trace_id },
    removeStartFrames (setEventMeasurements ev m), ?_, ?_, ?_, ?_⟩
  · rw [processEvent_immediate hetc hefd hhas, hm]
    rfl
  · simp [SMap.del]
  · exact hnolist
  · intro finalEndTimestamp2 startFrames2
    refine ⟨{ st with
        finishFrames := st.finishFrames.del tc.trace_id,
        framesListeners :=
          st.framesListeners.set tc.trace_id
            ⟨finalEndTimestamp2, startFrames2⟩ }, ?_, rfl⟩
    have hnone : (st.finishFrames.del tc.trace_id) tc.trace_id = none := by
      simp [SMap.del]
    simp [getFramesMeasurements, hnone]

/-- Witness for single consumption at a concrete reconciliation: the finish
record for trace `"t1"` is consumed and the slots are empty afterwards. -/
theorem single_consumption_witness :
    ∃ st2 ev2, processEvent stReady evReady = .done st2 ev2 ∧
      st2.finishFrames tcReady.trace_id = none ∧
      st2.framesListeners tcReady.trace_id = none ∧
      ∀ finalEndTimestamp2 startFrames2, ∃ st3,
        getFramesMeasurements st2 tcReady.trace_id finalEndTimestamp2
          startFrames2 = .suspended st3 ∧
        (waiterTimeout st3 tcReady.trace_id).2 = none :=
  single_consumption stReady evReady ⟨some tcReady⟩ tcReady dataStart startA
    10 ⟨10 + 1 / 100, some snapA⟩ (computeMeasurements snapA startA)
    rfl rfl rfl rfl (by decide) rfl rfl rfl (by norm_num) rfl rfl
    (prepareMeasurements_finish_hit rfl rfl
      (by rw [show ((10 : ℚ) + 1 / 100) - 10 = 1 / 100 by ring,
            abs_of_pos (by norm_num)]
          norm_num [MARGIN_OF_ERROR_SECONDS]))

/-- C8: for a transaction event carrying a trace id, a start-frames
attachment and a timestamp (with its finish record present): on successful
reconciliation the three frame measurement keys are merged into the event's
measurements without clobbering unrelated keys and the cached finish record
is deleted; whether reconciliation succeeds or fails, the start-frames
attachment is removed from the returned event. -/
theorem merge_preserves_and_cleans (st : InstrumentationState) (ev : Event)
    (contexts : Contexts) (tc : TraceContext) (d : TraceContextData)
    (sf : NativeFramesResponse) (t : ℚ)
    (htype : ev.type_ = some "transaction")
    (htx : jsTruthyStr ev.transaction = true)
    (hctx : ev.contexts = some contexts)
    (htrace : contexts.trace = some tc)
    (hid : tc.trace_id ≠ "")
    (hdata : tc.data = some d)
    (hsf : d.startFrames = some sf)
    (hts : ev.timestamp = some t) (ht0 : t ≠ 0)
    (hhas : (st.finishFrames tc.trace_id).isSome = true) :
    ∃ st2 ev2, processEvent st ev = .done st2 ev2 ∧
      (∃ tc2, ev2.contexts = some ⟨some tc2⟩ ∧
        tc2.trace_id = tc.trace_id ∧ tc2.data = some ⟨none⟩) ∧
      (∀ m, prepareMeasurements st tc.trace_id t sf = some m →
        st2.finishFrames tc.trace_id = none ∧
        ∃ mm, ev2.measurements = some mm ∧
          mm "frames_total" = some m.frames_total ∧
          mm "frames_slow" = some m.frames_slow ∧
          mm "frames_frozen" = some m.frames_frozen ∧
          (∀ k, k ≠ "frames_total" → k ≠ "frames_slow" →
            k ≠ "frames_frozen" → mm k = eventMeasLookup ev k)) ∧
      (prepareMeasurements st tc.trace_id t sf = none →
        st2 = st ∧ ev2.measurements = ev.measurements) := by
  have hetc := eventTraceContext_eq_some htype htx hctx htrace
  have hefd := eventFramesData_eq_some hid hdata hsf hts ht0
  have hne1 : ("frames_total" : String) ≠ "frames_slow" := by decide
  have hne2 : ("frames_total" : String) ≠ "frames_frozen" := by decide
  have hne3 : ("frames_slow" : String) ≠ "frames_frozen" := by decide
  have hne4 : ("frames_frozen" : String) ≠ "frames_slow" := by decide
  cases hm : prepareMeasurements st tc.trace_id t sf with
  | none =>
      refine ⟨st, removeStartFrames ev, ?_, ?_, ?_, ?_⟩
      · rw [processEvent_immediate hetc hefd hhas, hm]
        rfl
      · exact ⟨{ tc with data := some ⟨none⟩ },
          removeStartFrames_contexts hctx htrace hdata, rfl, rfl⟩
      · intro m hm2
        exact absurd hm2 (by simp)
      · intro _
        exact ⟨rfl, removeStartFrames_measurements ev⟩
  | some m0 =>
      refine ⟨{ st with finishFrames := st.finishFrames.del tc.trace_id },
        removeStartFrames (setEventMeasurements ev m0), ?_, ?_, ?_, ?_⟩
      · rw [processEvent_immediate hetc hefd hhas, hm]
        rfl
      · exact ⟨{ tc with data := some ⟨none⟩ },
          removeStartFrames_contexts
            (show (setEventMeasurements ev m0).contexts = some contexts
              from hctx) htrace hdata, rfl, rfl⟩
      · intro m hm2
        injection hm2 with hm2
        subst hm2
        refine ⟨by simp [SMap.del], ?_⟩
        cases hms : ev.measurements with
        | none =>
            refine ⟨((SMap.empty.set "frames_total" m0.frames_total).set
                "frames_frozen" m0.frames_frozen).set "frames_slow"
                m0.frames_slow, ?_, ?_, ?_, ?_, ?_⟩
            · rw [removeStartFrames_measurements]
              simp [setEventMeasurements, hms]
            · simp [SMap.set, hne1, hne2]
            · simp [SMap.set]
            · simp [SMap.set, hne4]
            · intro k hk1 hk2 hk3
              simp [SMap.set, hk1, hk2, hk3, eventMeasLookup, hms, SMap.empty]
        | some old =>
            refine ⟨((old.set "frames_total" m0.frames_total).set
                "frames_frozen" m0.frames_frozen).set "frames_slow"
                m0.frames_slow, ?_, ?_, ?_, ?_, ?_⟩
            · rw [removeStartFrames_measurements]
              simp [setEventMeasurements, hms]
            · simp [SMap.set, hne1, hne2]
            · simp [SMap.set]
            · simp [SMap.set, hne4]
            · intro k hk1 hk2 hk3
              simp [SMap.set, hk1, hk2, hk3, eventMeasLookup, hms]
      · intro hnone
        exact absurd hnone (by simp)

/-- Witness for the merge theorem: an event with a pre-existing unrelated
measurement key is reconciled against an in-tolerance finish record. -/
theorem merge_preserves_and_cleans_witness :
    ∃ st2 ev2, processEvent stReady evWithMeas = .done st2 ev2 ∧
      (∃ tc2, ev2.contexts = some ⟨some tc2⟩ ∧
        tc2.trace_id = tcReady.trace_id ∧ tc2.data = some ⟨none⟩) ∧
      (∀ m, prepareMeasurements stReady tcReady.trace_id 10 startA = some m →
        st2.finishFrames tcReady.trace_id = none ∧
        ∃ mm, ev2.measurements = some mm ∧
          mm "frames_total" = some m.frames_total ∧
          mm "frames_slow" = some m.frames_slow ∧
          mm "frames_frozen" = some m.frames_frozen ∧
          (∀ k, k ≠ "frames_total" → k ≠ "frames_slow" →
            k ≠ "frames_frozen" → mm k = eventMeasLookup evWithMeas k)) ∧
      (prepareMeasurements stReady tcReady.trace_id 10 startA = none →
        st2 = stReady ∧ ev2.measurements = evWithMeas.measurements) :=
  merge_preserves_and_cleans stReady evWithMeas ⟨some tcReady⟩ tcReady
    dataStart startA 10 rfl rfl rfl rfl (by decide) rfl rfl rfl
    (by norm_num) rfl

end NativeFrames
